import Mathlib

/-!
Shallow embedding of `scripts/export_moonshine_ar_onnx.py` (the sole source
file of the repository): a command-line script that exports the Moonshine
speech model to two ONNX graphs, optionally quantizes them, and copies the
tokenizer files into an output directory.

External library calls (torch, transformers, onnxruntime, pathlib, argparse)
are modelled explicitly: pure path / filesystem manipulation is embedded
faithfully from CPython semantics, and opaque library effects (model loading,
graph tracing, quantization, tokenizer saving) are supplied by an `Env`
record of outcomes so that the script's own control flow — which is what the
claims are about — is fully captured.
-/

/-! ## Paths (CPython `pathlib.PurePath` semantics for `stem` / `with_name`) -/

/-- Index of the last `'.'` in a character list, if any
    (CPython `str.rfind`). -/
def lastDotIdxAux : List Char → Option Nat
  | [] => none
  | c :: rest =>
    match lastDotIdxAux rest with
    | some i => some (i + 1)
    | none => if c = '.' then some 0 else none

/-- CPython `PurePath.stem` on the final component's characters: the name
    without its last suffix; a dot at position 0 or at the very end does not
    start a suffix. -/
def stemChars (l : List Char) : List Char :=
  match lastDotIdxAux l with
  | some i => if 0 < i ∧ i + 1 < l.length then l.take i else l
  | none => l

/-- `PurePath.stem` on a string. -/
def pathStem (s : String) : String :=
  ⟨stemChars s.data⟩

/-- A filesystem path, split into directory components and a final name
    (`pathlib.Path`). -/
structure PyPath where
  dir : List String
  name : String
deriving DecidableEq

/-- CPython `PurePath.with_name`: replace the final component. -/
def PyPath.with_name (p : PyPath) (n : String) : PyPath :=
  { p with name := n }

/-- CPython `PurePath.stem` of a path. -/
def PyPath.stem (p : PyPath) : String :=
  pathStem p.name

/-- `str(path)`: components joined by `/`. -/
def fmtPath (p : PyPath) : String :=
  String.intercalate "/" (p.dir ++ [p.name])

/-- `str(dir)` for a directory given as components. -/
def fmtDir (d : List String) : String :=
  String.intercalate "/" d

/-! ## Filesystem state -/

/-- Filesystem state: the set of existing directories (as component lists)
    and the files present, each with a byte size; later writes shadow
    earlier ones. -/
structure FS where
  dirs : List (List String)
  files : List (PyPath × Nat)
deriving DecidableEq

/-- Size of the file at `p`, if present. -/
def FS.fileSize (fs : FS) (p : PyPath) : Option Nat :=
  (fs.files.find? (fun q => q.1 = p)).map (fun q => q.2)

/-- Write (or overwrite) the file at `p` with `sz` bytes. -/
def FS.writeFile (fs : FS) (p : PyPath) (sz : Nat) : FS :=
  { fs with files := (p, sz) :: fs.files }

/-- Whether directory `d` exists. -/
def FS.dirExists (fs : FS) (d : List String) : Bool :=
  fs.dirs.contains d

/-- All nonempty prefixes of a component list: the directory together with
    every ancestor. -/
def dirChain : List String → List (List String)
  | [] => []
  | a :: rest => [a] :: (dirChain rest).map (fun l => a :: l)

/-- CPython `Path.mkdir(parents=..., exist_ok=...)`: raises `FileExistsError`
    when the directory exists and `exist_ok` is false; with `parents` true,
    missing ancestors are created; otherwise a missing parent raises
    `FileNotFoundError`. -/
def FS.mkdir (fs : FS) (d : List String) (parents exist_ok : Bool) :
    Except String FS :=
  if fs.dirExists d then
    if exist_ok then .ok fs else .error "FileExistsError"
  else if parents then
    .ok { fs with dirs := dirChain d ++ fs.dirs }
  else if d.length ≤ 1 ∨ fs.dirExists d.dropLast then
    .ok { fs with dirs := d :: fs.dirs }
  else .error "FileNotFoundError"

/-! ## Tensors (shape, dtype and zero-ness; values beyond zero-ness are
    irrelevant to the script's control flow) -/

/-- The two tensor dtypes the script constructs. -/
inductive DType
  | float32
  | int64
deriving DecidableEq

/-- A tensor, abstracted to its shape, dtype, and whether it is all zeros. -/
structure Tensor where
  shape : List Nat
  dtype : DType
  isZeros : Bool
deriving DecidableEq

/-- `torch.zeros(shape, dtype=...)`. -/
def torchZeros (shape : List Nat) (dtype : DType) : Tensor :=
  { shape := shape, dtype := dtype, isZeros := true }

/-- `torch.zeros_like(t)`: a zero tensor with exactly `t`'s shape and
    dtype. -/
def zeros_like (t : Tensor) : Tensor :=
  { shape := t.shape, dtype := t.dtype, isZeros := true }

/-! ## Graph export (`torch.onnx.export` call descriptors) -/

/-- The arguments the script passes to one `torch.onnx.export` invocation:
    the tuple of sample tensors, the output path, and the keyword
    arguments, with `dynamic_axes` as an association list from tensor name
    to (axis index, symbolic name) pairs. -/
structure ExportCall where
  samples : List Tensor
  out_path : PyPath
  input_names : List String
  output_names : List String
  opset_version : Nat
  dynamo : Bool
  dynamic_axes : List (String × List (Nat × String))
deriving DecidableEq

/-- Modelled from the spec: `torch.onnx.export` traces the wrapper once on
    the concrete sample tensors and records each sample input's shape —
    never its values — as the exported graph's input signature, with the
    listed axes left symbolic. The signature is therefore a function of the
    sample shapes and the declared names only. -/
def tracedInputSignature (c : ExportCall) : List (String × List Nat) :=
  c.input_names.zip (c.samples.map (fun t => t.shape))

/-- The call the decoder wrapper's `forward` makes into the native decoder
    (`DecoderWrapper.forward`, lines 71-78): keyword arguments it fixes. -/
structure DecoderInnerCall where
  input_ids : Tensor
  encoder_hidden_states : Tensor
  encoder_attention_mask : Option Tensor
  use_cache : Bool
deriving DecidableEq

/-- `DecoderWrapper.forward`: calls the native decoder with
    `encoder_attention_mask=None` and `use_cache=False`, then applies the
    output projection. -/
def DecoderWrapper.forward (decoder_input_ids encoder_hidden_states : Tensor) :
    DecoderInnerCall :=
  { input_ids := decoder_input_ids
    encoder_hidden_states := encoder_hidden_states
    encoder_attention_mask := none
    use_cache := false }

/-- The `torch.onnx.export` call issued by `export_encoder`
    (lines 48-61). -/
def encoderExportCall (input_values attention_mask : Tensor)
    (out_path : PyPath) : ExportCall :=
  { samples := [input_values, attention_mask]
    out_path := out_path
    input_names := ["input_values", "attention_mask"]
    output_names := ["encoder_hidden_states"]
    opset_version := 18
    dynamo := false
    dynamic_axes :=
      [("input_values", [(1, "audio_len")]),
       ("attention_mask", [(1, "audio_len")]),
       ("encoder_hidden_states", [(1, "time")])] }

/-- The `torch.onnx.export` call issued by `export_decoder`
    (lines 86-99). -/
def decoderExportCall (sample_tokens sample_enc : Tensor)
    (out_path : PyPath) : ExportCall :=
  { samples := [sample_tokens, sample_enc]
    out_path := out_path
    input_names := ["decoder_input_ids", "encoder_hidden_states"]
    output_names := ["logits"]
    opset_version := 18
    dynamo := false
    dynamic_axes :=
      [("decoder_input_ids", [(1, "seq")]),
       ("encoder_hidden_states", [(1, "time")]),
       ("logits", [(1, "seq"), (2, "vocab")])] }

/-! ## Environment of external library outcomes -/

/-- Outcomes of the external library calls the script makes. A `.error`
    value models the library call raising an exception with that message;
    the script's own code decides whether it is caught. -/
structure Env where
  /-- `AutoProcessor.from_pretrained` + `AutoModelForSpeechSeq2Seq.from_pretrained`. -/
  loadResult : Except String Unit
  /-- `processor.feature_extractor.sampling_rate`. -/
  sampling_rate : Nat
  /-- `processor(audio=..., ...)`: the (`input_values`, `attention_mask`) pair. -/
  processorRun : Tensor → Tensor × Tensor
  /-- the native encoder forward: `last_hidden_state` of
      `model.model.encoder(...)`. -/
  encoderForward : Tensor × Tensor → Tensor
  /-- `model.config.vocab_size`. -/
  vocab_size : Nat
  /-- `torch.onnx.export`: on success, the byte size of the graph file it
      writes at the call's `out_path`. -/
  exportRun : ExportCall → Except String Nat
  /-- the `onnxruntime.quantization` import plus `quantize_dynamic` on the
      given input file: on success, the byte size of the quantized file. -/
  quantizeRun : FS → PyPath → Except String Nat
  /-- `processor.save_pretrained`: on success, the (name, byte size) list of
      tokenizer/preprocessor files it writes into the output directory. -/
  savedFiles : Except String (List (String × Nat))

/-! ## The script's functions -/

/-- `export_encoder` (lines 32-62): wraps the encoder, issues the export
    call, and on success reports the written file. A tracing failure
    propagates (no try/except). -/
def export_encoder (env : Env) (fs : FS) (sample_inputs : Tensor × Tensor)
    (out_path : PyPath) : Except String (FS × List String × ExportCall) :=
  let call := encoderExportCall sample_inputs.1 sample_inputs.2 out_path
  match env.exportRun call with
  | .error e => .error e
  | .ok sz =>
    .ok (fs.writeFile out_path sz,
         ["✔ Encoder ONNX saved: " ++ fmtPath out_path], call)

/-- `export_decoder` (lines 65-100): builds the sample tensors — a fixed
    `(1, 4)` int64 zero tensor of token ids and `zeros_like` of the encoder
    hidden states — issues the export call, and on success reports the
    written file. A tracing failure propagates (no try/except). -/
def export_decoder (env : Env) (fs : FS) (encoder_hidden : Tensor)
    (out_path : PyPath) : Except String (FS × List String × ExportCall) :=
  let vocab := env.vocab_size
  let sample_tokens := torchZeros [1, 4] DType.int64
  let sample_enc := zeros_like encoder_hidden
  let call := decoderExportCall sample_tokens sample_enc out_path
  match env.exportRun call with
  | .error e => .error e
  | .ok sz =>
    .ok (fs.writeFile out_path sz,
         ["✔ Decoder ONNX saved: " ++ fmtPath out_path ++
          " (vocab=" ++ toString vocab ++ ")"], call)

/-- `quantize_int8` (lines 103-116): attempts dynamic int8 quantization of
    the graph at `path`, writing the result next to it as
    `stem + "_int8.onnx"`. The whole body is inside `try`/`except
    Exception`: any failure (import error, library error, corrupt graph) is
    caught and logged, and the function returns normally with the
    filesystem unchanged. Returns the resulting filesystem and the printed
    lines. -/
def quantize_int8 (env : Env) (fs : FS) (path : PyPath) : FS × List String :=
  match env.quantizeRun fs path with
  | .ok sz =>
    let q_path := path.with_name (path.stem ++ "_int8.onnx")
    (fs.writeFile q_path sz, ["✔ Quantized -> " ++ q_path.name])
  | .error e => (fs, ["Quantization skipped for " ++ path.name ++ ": " ++ e])

/-! ## Command line (`argparse`, lines 120-125) -/

/-- `parser.add_argument("--quantize", choices=["int8", None], default="int8")`:
    the declared choices. The literal `None` can never be selected by a
    command-line string, since argparse compares the passed string against
    each choice. -/
def quantizeChoices : List (Option String) := [some "int8", none]

/-- Parsing of the `--quantize` option: when the flag is absent the default
    `"int8"` is used; when a string is passed it must be listed in
    `quantizeChoices`, otherwise argparse rejects the command line. -/
def parseQuantizeArg : Option String → Except String String
  | none => .ok "int8"
  | some s =>
    if quantizeChoices.contains (some s) then .ok s
    else .error ("argument --quantize: invalid choice: " ++ s)

/-- The parsed command line (`args`). `output_dir` is held as path
    components; `seconds` is modelled at whole-second granularity (it only
    sizes the dummy tracing audio and no claim depends on fractions). -/
structure Args where
  model_id : String
  output_dir : List String
  seconds : Nat
  quantize : String
deriving DecidableEq

/-- The parsed default command line: `--model-id UsefulSensors/moonshine-tiny-ar
    --output-dir ./assets/onnx-ar --seconds 6` with `--quantize` absent, so
    `quantize` holds the argparse default `"int8"`. -/
def defaultArgs : Args :=
  { model_id := "UsefulSensors/moonshine-tiny-ar"
    output_dir := ["assets", "onnx-ar"]
    seconds := 6
    quantize := "int8" }

/-! ## `main` (lines 119-163) -/

/-- The observable outcome of a successful run: the final filesystem, the
    lines printed to standard output in order, the `torch.onnx.export`
    calls issued, and the paths on which quantization was attempted. -/
structure RunResult where
  fs : FS
  printed : List String
  exportCalls : List ExportCall
  quantAttempts : List PyPath
deriving DecidableEq

/-- `main` (lines 119-163): make the output directory, load processor and
    model, build the dummy audio and run the encoder once for its output
    shape, export both graphs, quantize iff `args.quantize == "int8"`,
    then save the tokenizer files (NOT wrapped in try/except — a failure
    here propagates) and print the closing messages. An uncaught exception
    anywhere surfaces as `.error` (process exits non-zero); `.ok` is the
    process exiting zero. (Namespaced because Lean reserves the bare name
    `main` for executables.) -/
def Script.main (env : Env) (fs0 : FS) (args : Args) : Except String RunResult :=
  match fs0.mkdir args.output_dir true true with
  | .error e => .error e
  | .ok fs =>
  let printed := ["Loading processor/model..."]
  match env.loadResult with
  | .error e => .error e
  | .ok () =>
  let sr := env.sampling_rate
  let sample_len := args.seconds * sr
  let dummy_audio := torchZeros [1, sample_len] DType.float32
  let sample_inputs := env.processorRun dummy_audio
  let printed := printed ++ ["Running encoder once to get shape..."]
  let enc_out := env.encoderForward sample_inputs
  let printed := printed ++ ["Encoder hidden shape: " ++ toString enc_out.shape]
  let encoder_path : PyPath := { dir := args.output_dir, name := "encoder.onnx" }
  let decoder_path : PyPath := { dir := args.output_dir, name := "decoder.onnx" }
  match export_encoder env fs sample_inputs encoder_path with
  | .error e => .error e
  | .ok (fs, encLog, encCall) =>
  match export_decoder env fs enc_out decoder_path with
  | .error e => .error e
  | .ok (fs, decLog, decCall) =>
  let printed := printed ++ encLog ++ decLog
  let fpq :=
    if args.quantize = "int8" then
      let q1 := quantize_int8 env fs encoder_path
      let q2 := quantize_int8 env q1.1 decoder_path
      (q2.1, printed ++ q1.2 ++ q2.2, [encoder_path, decoder_path])
    else (fs, printed, ([] : List PyPath))
  let fs := fpq.1
  let printed := fpq.2.1
  let quantAttempts := fpq.2.2
  match env.savedFiles with
  | .error e => .error e
  | .ok saved =>
  let fs := saved.foldl
    (fun a f => a.writeFile { dir := args.output_dir, name := f.1 } f.2) fs
  let printed := printed ++ ["✔ Tokenizer/preprocessor saved."]
  let printed := printed ++
    ["\nExport complete. Point ONNX_CONFIG in App.tsx to files in " ++
     fmtDir args.output_dir]
  .ok { fs := fs, printed := printed, exportCalls := [encCall, decCall]
        quantAttempts := quantAttempts }

/-! ## Concrete environments for evaluation -/

/-- An empty filesystem. -/
def emptyFS : FS := { dirs := [], files := [] }

/-- A fully successful environment: every library call succeeds, with
    arbitrary concrete shapes and sizes. The encoder output is deliberately
    a non-zero tensor so that `zeros_like` is observable. -/
def okEnv : Env :=
  { loadResult := .ok ()
    sampling_rate := 16000
    processorRun := fun t =>
      (t, { shape := t.shape, dtype := DType.int64, isZeros := true })
    encoderForward := fun _ =>
      { shape := [1, 300, 288], dtype := DType.float32, isZeros := false }
    vocab_size := 32768
    exportRun := fun _ => .ok 1000
    quantizeRun := fun _ _ => .ok 400
    savedFiles := .ok [("tokenizer.json", 2000), ("preprocessor_config.json", 500)] }

/-- `okEnv` except that `processor.save_pretrained` raises. -/
def saveFailEnv : Env := { okEnv with savedFiles := .error "disk full" }

/-- `okEnv` except that quantization raises on every input (e.g. a corrupt
    input graph or a missing onnxruntime installation). -/
def quantFailEnv : Env := { okEnv with quantizeRun := fun _ _ => .error "corrupt graph" }

/-- `okEnv` except that the exported graph files come out at a different
    byte size. -/
def bigExportEnv : Env := { okEnv with exportRun := fun _ => .ok 999999 }

/-! ## Helper lemmas -/

theorem lastDotIdxAux_dot : ∀ (l : List Char) (i : Nat),
    lastDotIdxAux l = some i → l[i]? = some '.'
  | [], i, h => by simp [lastDotIdxAux] at h
  | c :: rest, i, h => by
    unfold lastDotIdxAux at h
    cases hr : lastDotIdxAux rest with
    | some j =>
      rw [hr] at h
      change some (j + 1) = some i at h
      cases h
      simpa using lastDotIdxAux_dot rest j hr
    | none =>
      rw [hr] at h
      change (if c = '.' then some 0 else none) = some i at h
      by_cases hc : c = '.'
      · rw [if_pos hc] at h
        cases h
        simp [hc]
      · rw [if_neg hc] at h
        cases h

theorem stemChars_eq_of_some (l : List Char) (i : Nat)
    (hd : lastDotIdxAux l = some i) :
    stemChars l = if 0 < i ∧ i + 1 < l.length then l.take i else l := by
  unfold stemChars
  rw [hd]

theorem stemChars_eq_of_none (l : List Char) (hd : lastDotIdxAux l = none) :
    stemChars l = l := by
  unfold stemChars
  rw [hd]

theorem stemChars_int8_ne (l : List Char) :
    stemChars l ++ ("_int8.onnx").data ≠ l := by
  cases hd : lastDotIdxAux l with
  | none =>
    rw [stemChars_eq_of_none l hd]
    intro h
    have := congrArg List.length h
    simp at this
  | some i =>
    rw [stemChars_eq_of_some l i hd]
    by_cases hb : 0 < i ∧ i + 1 < l.length
    · rw [if_pos hb]
      intro h
      have hdot := lastDotIdxAux_dot l i hd
      have hlen : (l.take i).length = i := by
        rw [List.length_take]
        omega
      have h1 : (l.take i ++ ("_int8.onnx").data)[i]? =
          ("_int8.onnx").data[i - (l.take i).length]? :=
        List.getElem?_append_right (by omega)
      rw [hlen] at h1
      simp only [Nat.sub_self] at h1
      rw [h] at h1
      rw [hdot] at h1
      exact absurd h1 (by decide)
    · rw [if_neg hb]
      intro h
      have := congrArg List.length h
      simp at this

theorem with_name_int8_ne (p : PyPath) :
    p.with_name (p.stem ++ "_int8.onnx") ≠ p := by
  intro h
  have hn : p.stem ++ "_int8.onnx" = p.name := congrArg PyPath.name h
  have hd : (pathStem p.name).data ++ ("_int8.onnx").data = p.name.data := by
    have := congrArg String.data hn
    simpa [PyPath.stem, String.data_append] using this
  exact stemChars_int8_ne p.name.data (by simpa [pathStem] using hd)

theorem fileSize_writeFile_self (fs : FS) (p : PyPath) (sz : Nat) :
    (fs.writeFile p sz).fileSize p = some sz := by
  simp [FS.writeFile, FS.fileSize, List.find?]

theorem fileSize_writeFile_ne (fs : FS) (p q : PyPath) (sz : Nat) (h : q ≠ p) :
    (fs.writeFile q sz).fileSize p = fs.fileSize p := by
  simp [FS.writeFile, FS.fileSize, List.find?, h]

theorem quantize_int8_fileSize_eq (env : Env) (fs : FS) (path : PyPath) :
    ((quantize_int8 env fs path).1).fileSize path = fs.fileSize path := by
  unfold quantize_int8
  cases hq : env.quantizeRun fs path with
  | error e => rfl
  | ok sz =>
    exact fileSize_writeFile_ne fs path _ sz (with_name_int8_ne path)

theorem mkdir_true_true_ok (fs : FS) (d : List String) :
    ∃ fs', fs.mkdir d true true = .ok fs' := by
  unfold FS.mkdir
  by_cases h : fs.dirExists d
  · exact ⟨fs, by rw [if_pos h, if_pos rfl]⟩
  · exact ⟨_, by rw [if_neg h, if_pos rfl]⟩

theorem self_mem_dirChain : ∀ (d : List String), d ≠ [] → d ∈ dirChain d
  | [], h => absurd rfl h
  | a :: rest, _ => by
    unfold dirChain
    cases rest with
    | nil => simp [dirChain]
    | cons b r =>
      exact List.mem_cons_of_mem _
        (List.mem_map_of_mem _ (self_mem_dirChain (b :: r) (by simp)))

theorem exists_append_stack4 (L x y z w : List String) (a b c : String) :
    ∃ P, a :: b :: c :: (x ++ (y ++ (z ++ (w ++ L)))) = P ++ L :=
  ⟨a :: b :: c :: (x ++ (y ++ (z ++ w))), by simp⟩

theorem exists_append_stack2 (L x y : List String) (a b c : String) :
    ∃ P, a :: b :: c :: (x ++ (y ++ L)) = P ++ L :=
  ⟨a :: b :: c :: (x ++ y), by simp⟩

theorem export_encoder_call_eq (env : Env) (fs : FS) (si : Tensor × Tensor)
    (p : PyPath) (t : FS × List String × ExportCall)
    (h : export_encoder env fs si p = .ok t) :
    t.2.2 = encoderExportCall si.1 si.2 p := by
  unfold export_encoder at h
  cases hq : env.exportRun (encoderExportCall si.1 si.2 p) with
  | error e =>
    simp only [hq] at h
    exact Except.noConfusion h
  | ok sz =>
    simp only [hq, Except.ok.injEq] at h
    subst h
    rfl

theorem export_decoder_call_eq (env : Env) (fs : FS) (ehid : Tensor)
    (p : PyPath) (t : FS × List String × ExportCall)
    (h : export_decoder env fs ehid p = .ok t) :
    t.2.2 = decoderExportCall (torchZeros [1, 4] DType.int64) (zeros_like ehid) p := by
  unfold export_decoder at h
  cases hq : env.exportRun
      (decoderExportCall (torchZeros [1, 4] DType.int64) (zeros_like ehid) p) with
  | error e =>
    simp only [hq] at h
    exact Except.noConfusion h
  | ok sz =>
    simp only [hq, Except.ok.injEq] at h
    subst h
    rfl

theorem main_ok_spec (env : Env) (fs0 : FS) (args : Args) (r : RunResult)
    (h : Script.main env fs0 args = .ok r) :
    r.exportCalls =
      [encoderExportCall
        (env.processorRun (torchZeros [1, args.seconds * env.sampling_rate] DType.float32)).1
        (env.processorRun (torchZeros [1, args.seconds * env.sampling_rate] DType.float32)).2
        { dir := args.output_dir, name := "encoder.onnx" },
       decoderExportCall (torchZeros [1, 4] DType.int64)
        (zeros_like (env.encoderForward
          (env.processorRun (torchZeros [1, args.seconds * env.sampling_rate] DType.float32))))
        { dir := args.output_dir, name := "decoder.onnx" }] ∧
    r.quantAttempts =
      (if args.quantize = "int8" then
        [{ dir := args.output_dir, name := "encoder.onnx" },
         { dir := args.output_dir, name := "decoder.onnx" }]
      else ([] : List PyPath)) ∧
    ∃ P, r.printed = P ++
      ["✔ Tokenizer/preprocessor saved.",
       "\nExport complete. Point ONNX_CONFIG in App.tsx to files in " ++
        fmtDir args.output_dir] := by
  unfold Script.main at h
  cases hm : fs0.mkdir args.output_dir true true with
  | error e =>
    simp only [hm] at h
    exact Except.noConfusion h
  | ok fs1 =>
  simp only [hm] at h
  cases hl : env.loadResult with
  | error e =>
    simp only [hl] at h
    exact Except.noConfusion h
  | ok u =>
  cases u
  simp only [hl] at h
  cases henc : export_encoder env fs1
      (env.processorRun (torchZeros [1, args.seconds * env.sampling_rate] DType.float32))
      { dir := args.output_dir, name := "encoder.onnx" } with
  | error e =>
    simp only [henc] at h
    exact Except.noConfusion h
  | ok tenc =>
  obtain ⟨fs2, encLog, encCall⟩ := tenc
  simp only [henc] at h
  cases hdec : export_decoder env fs2
      (env.encoderForward
        (env.processorRun (torchZeros [1, args.seconds * env.sampling_rate] DType.float32)))
      { dir := args.output_dir, name := "decoder.onnx" } with
  | error e =>
    simp only [hdec] at h
    exact Except.noConfusion h
  | ok tdec =>
  obtain ⟨fs3, decLog, decCall⟩ := tdec
  simp only [hdec] at h
  cases hs : env.savedFiles with
  | error e =>
    simp only [hs] at h
    exact Except.noConfusion h
  | ok saved =>
  simp only [hs] at h
  have hc1 := export_encoder_call_eq _ _ _ _ _ henc
  have hc2 := export_decoder_call_eq _ _ _ _ _ hdec
  simp only at hc1 hc2
  subst hc1
  subst hc2
  cases h
  refine ⟨rfl, ?_, ?_⟩
  · by_cases hqz : args.quantize = "int8"
    · simp [hqz]
    · simp [hqz]
  · by_cases hqz : args.quantize = "int8"
    · simp only [hqz, if_pos rfl]
      simp
      exact exists_append_stack4 _ _ _ _ _ _ _ _
    · simp only [if_neg hqz]
      simp
      exact exists_append_stack2 _ _ _ _ _ _

theorem export_encoder_eq_ok (env : Env) (fs : FS) (si : Tensor × Tensor)
    (p : PyPath) (sz : Nat)
    (h : env.exportRun (encoderExportCall si.1 si.2 p) = .ok sz) :
    export_encoder env fs si p =
      .ok (fs.writeFile p sz, ["✔ Encoder ONNX saved: " ++ fmtPath p],
           encoderExportCall si.1 si.2 p) := by
  unfold export_encoder
  simp only [h]

theorem export_decoder_eq_ok (env : Env) (fs : FS) (ehid : Tensor)
    (p : PyPath) (sz : Nat)
    (h : env.exportRun
      (decoderExportCall (torchZeros [1, 4] DType.int64) (zeros_like ehid) p) = .ok sz) :
    export_decoder env fs ehid p =
      .ok (fs.writeFile p sz,
           ["✔ Decoder ONNX saved: " ++ fmtPath p ++
            " (vocab=" ++ toString env.vocab_size ++ ")"],
           decoderExportCall (torchZeros [1, 4] DType.int64) (zeros_like ehid) p) := by
  unfold export_decoder
  simp only [h]

theorem main_save_error (env : Env) (fs0 : FS) (args : Args) (e : String)
    (hl : env.loadResult = .ok ())
    (he : ∀ c, ∃ n, env.exportRun c = .ok n)
    (hs : env.savedFiles = .error e) :
    Script.main env fs0 args = .error e := by
  obtain ⟨fs1, hm⟩ := mkdir_true_true_ok fs0 args.output_dir
  unfold Script.main
  simp only [hm, hl]
  obtain ⟨n1, h1⟩ := he (encoderExportCall
    (env.processorRun (torchZeros [1, args.seconds * env.sampling_rate] DType.float32)).1
    (env.processorRun (torchZeros [1, args.seconds * env.sampling_rate] DType.float32)).2
    { dir := args.output_dir, name := "encoder.onnx" })
  simp only [export_encoder_eq_ok env fs1 _ _ n1 h1]
  obtain ⟨n2, h2⟩ := he (decoderExportCall (torchZeros [1, 4] DType.int64)
    (zeros_like (env.encoderForward
      (env.processorRun (torchZeros [1, args.seconds * env.sampling_rate] DType.float32))))
    { dir := args.output_dir, name := "decoder.onnx" })
  simp only [export_decoder_eq_ok env _ _ _ n2 h2]
  simp only [hs]

theorem main_ok_exists (env : Env) (fs0 : FS) (args : Args)
    (hl : env.loadResult = .ok ())
    (he : ∀ c, ∃ n, env.exportRun c = .ok n)
    (hs : ∃ l, env.savedFiles = .ok l) :
    ∃ r, Script.main env fs0 args = .ok r := by
  obtain ⟨fs1, hm⟩ := mkdir_true_true_ok fs0 args.output_dir
  obtain ⟨l, hsl⟩ := hs
  unfold Script.main
  simp only [hm, hl]
  obtain ⟨n1, h1⟩ := he (encoderExportCall
    (env.processorRun (torchZeros [1, args.seconds * env.sampling_rate] DType.float32)).1
    (env.processorRun (torchZeros [1, args.seconds * env.sampling_rate] DType.float32)).2
    { dir := args.output_dir, name := "encoder.onnx" })
  simp only [export_encoder_eq_ok env fs1 _ _ n1 h1]
  obtain ⟨n2, h2⟩ := he (decoderExportCall (torchZeros [1, 4] DType.int64)
    (zeros_like (env.encoderForward
      (env.processorRun (torchZeros [1, args.seconds * env.sampling_rate] DType.float32))))
    { dir := args.output_dir, name := "decoder.onnx" })
  simp only [export_decoder_eq_ok env _ _ _ n2 h2]
  simp only [hsl]
  exact ⟨_, rfl⟩

/-- Claim C1 counterexample: with every other library call succeeding but
    `save_pretrained` raising, the process exits non-zero (the exception
    propagates), contradicting the claim that the failure is caught and the
    process exits zero. -/
theorem C1_counterexample :
    Script.main saveFailEnv emptyFS defaultArgs = Except.error "disk full" := rfl

/-- Claim C1 (amended): a failure while saving the processor/tokenizer
    files is NOT caught: `processor.save_pretrained` is outside any
    try/except, so the exception propagates and the process exits
    non-zero. -/
theorem C1_save_failure_propagates (env : Env) (fs0 : FS) (args : Args)
    (e : String)
    (hl : env.loadResult = .ok ())
    (he : ∀ c, ∃ n, env.exportRun c = .ok n)
    (hs : env.savedFiles = .error e) :
    Script.main env fs0 args = Except.error e :=
  main_save_error env fs0 args e hl he hs

/-- Claim C1 witness: the amended theorem at a concrete environment. -/
theorem C1_witness :
    Script.main saveFailEnv emptyFS defaultArgs = Except.error "disk full" :=
  C1_save_failure_propagates saveFailEnv emptyFS defaultArgs "disk full" rfl
    (fun _ => ⟨1000, rfl⟩) rfl

/-- Claim C2: the `--quantize` flag defaults to `"int8"`, so on the default
    command line (flag absent) quantization IS attempted on both graphs and
    `encoder_int8.onnx` is produced — the code contradicts the intended
    "quantize only when `--quantize int8` is passed" behavior. -/
theorem C2_default_quantizes :
    parseQuantizeArg none = Except.ok "int8" ∧
    defaultArgs.quantize = "int8" ∧
    (Script.main okEnv emptyFS defaultArgs).toOption.map (fun r => r.quantAttempts) =
      some [{ dir := ["assets", "onnx-ar"], name := "encoder.onnx" },
            { dir := ["assets", "onnx-ar"], name := "decoder.onnx" }] ∧
    (Script.main okEnv emptyFS defaultArgs).toOption.map
      (fun r => r.fs.fileSize { dir := ["assets", "onnx-ar"], name := "encoder_int8.onnx" }) =
      some (some 400) :=
  ⟨rfl, rfl, rfl, rfl⟩

/-- Claim C3: quantization is best-effort — for every input path the try
    block catches any exception: the float32 artifact at the input path is
    unchanged, a failure is logged as a skip message, and (with the other
    stages succeeding) the process exits zero whatever `quantizeRun`
    does. -/
theorem C3_quantize_failure_is_caught (env : Env) (fs : FS) (path : PyPath) :
    ((quantize_int8 env fs path).1).fileSize path = fs.fileSize path ∧
    (∀ e, env.quantizeRun fs path = .error e →
      (quantize_int8 env fs path).2 =
        ["Quantization skipped for " ++ path.name ++ ": " ++ e]) ∧
    (∀ fs0 args, env.loadResult = .ok () → (∀ c, ∃ n, env.exportRun c = .ok n) →
      (∃ l, env.savedFiles = .ok l) → ∃ r, Script.main env fs0 args = .ok r) := by
  refine ⟨quantize_int8_fileSize_eq env fs path, ?_, ?_⟩
  · intro e he
    unfold quantize_int8
    simp only [he]
  · intro fs0 args hl he hs
    exact main_ok_exists env fs0 args hl he hs

/-- Claim C3 witness: quantization failing with a corrupt graph at a
    concrete path — artifact untouched, skip message logged, run exits
    zero. -/
theorem C3_witness :
    ((quantize_int8 quantFailEnv emptyFS
        { dir := ["assets", "onnx-ar"], name := "encoder.onnx" }).1).fileSize
      { dir := ["assets", "onnx-ar"], name := "encoder.onnx" } =
      emptyFS.fileSize { dir := ["assets", "onnx-ar"], name := "encoder.onnx" } ∧
    (quantize_int8 quantFailEnv emptyFS
        { dir := ["assets", "onnx-ar"], name := "encoder.onnx" }).2 =
      ["Quantization skipped for encoder.onnx: corrupt graph"] ∧
    ∃ r, Script.main quantFailEnv emptyFS defaultArgs = .ok r := by
  obtain ⟨h1, h2, h3⟩ := C3_quantize_failure_is_caught quantFailEnv emptyFS
    { dir := ["assets", "onnx-ar"], name := "encoder.onnx" }
  refine ⟨h1, ?_, ?_⟩
  · rw [h2 "corrupt graph" rfl]
    decide
  · exact h3 emptyFS defaultArgs rfl (fun _ => ⟨1000, rfl⟩) ⟨_, rfl⟩

/-- Claim C4 counterexample: two runs that differ only in the byte sizes of
    the exported files print the very same lines, yet the resulting
    `encoder.onnx` sizes differ — so the printed output cannot report every
    file in the output directory with its size. -/
theorem C4_counterexample :
    (Script.main okEnv emptyFS defaultArgs).toOption.map (fun r => r.printed) =
      (Script.main bigExportEnv emptyFS defaultArgs).toOption.map (fun r => r.printed) ∧
    (Script.main okEnv emptyFS defaultArgs).toOption.map
      (fun r => r.fs.fileSize { dir := ["assets", "onnx-ar"], name := "encoder.onnx" }) =
      some (some 1000) ∧
    (Script.main bigExportEnv emptyFS defaultArgs).toOption.map
      (fun r => r.fs.fileSize { dir := ["assets", "onnx-ar"], name := "encoder.onnx" }) =
      some (some 999999) :=
  ⟨rfl, rfl, rfl⟩

/-- Claim C4 (amended): after copying the processor/tokenizer configuration
    the script prints only a fixed confirmation line and a completion
    message naming the output directory; no per-file size listing is
    printed. -/
theorem C4_post_copy_prints_fixed_messages (env : Env) (fs0 : FS) (args : Args)
    (r : RunResult) (h : Script.main env fs0 args = .ok r) :
    ∃ P, r.printed = P ++
      ["✔ Tokenizer/preprocessor saved.",
       "\nExport complete. Point ONNX_CONFIG in App.tsx to files in " ++
        fmtDir args.output_dir] :=
  (main_ok_spec env fs0 args r h).2.2

/-- Claim C4 witness: the amended theorem at a concrete successful run. -/
theorem C4_witness :
    ∃ r, Script.main okEnv emptyFS defaultArgs = Except.ok r ∧
      ∃ P, r.printed = P ++
        ["✔ Tokenizer/preprocessor saved.",
         "\nExport complete. Point ONNX_CONFIG in App.tsx to files in " ++
          fmtDir defaultArgs.output_dir] := by
  obtain ⟨r, hr⟩ : ∃ r, Script.main okEnv emptyFS defaultArgs = Except.ok r := ⟨_, rfl⟩
  exact ⟨r, hr, C4_post_copy_prints_fixed_messages okEnv emptyFS defaultArgs r hr⟩

/-- Claim C5: in every successful run, the first `torch.onnx.export` call —
    the encoder export — targets `encoder.onnx` with inputs `input_values`
    and `attention_mask` whose axis 1 is the symbolic `"audio_len"`, and a
    single output `encoder_hidden_states` whose axis 1 is the symbolic
    `"time"`. -/
theorem C5_encoder_dynamic_axes (env : Env) (fs0 : FS) (args : Args)
    (r : RunResult) (h : Script.main env fs0 args = .ok r) :
    ∃ c, r.exportCalls.head? = some c ∧
      c.out_path = { dir := args.output_dir, name := "encoder.onnx" } ∧
      c.input_names = ["input_values", "attention_mask"] ∧
      c.output_names = ["encoder_hidden_states"] ∧
      c.dynamic_axes =
        [("input_values", [(1, "audio_len")]),
         ("attention_mask", [(1, "audio_len")]),
         ("encoder_hidden_states", [(1, "time")])] := by
  obtain ⟨hc, -, -⟩ := main_ok_spec env fs0 args r h
  rw [hc]
  exact ⟨_, rfl, rfl, rfl, rfl, rfl⟩

/-- Claim C5 witness: the encoder export call of a concrete run. -/
theorem C5_witness :
    ∃ r, Script.main okEnv emptyFS defaultArgs = Except.ok r ∧
      ∃ c, r.exportCalls.head? = some c ∧
        c.out_path = { dir := defaultArgs.output_dir, name := "encoder.onnx" } ∧
        c.input_names = ["input_values", "attention_mask"] ∧
        c.output_names = ["encoder_hidden_states"] ∧
        c.dynamic_axes =
          [("input_values", [(1, "audio_len")]),
           ("attention_mask", [(1, "audio_len")]),
           ("encoder_hidden_states", [(1, "time")])] := by
  obtain ⟨r, hr⟩ : ∃ r, Script.main okEnv emptyFS defaultArgs = Except.ok r := ⟨_, rfl⟩
  exact ⟨r, hr, C5_encoder_dynamic_axes okEnv emptyFS defaultArgs r hr⟩

/-- Claim C6: the decoder wrapper calls the native decoder with
    `use_cache=False` (and no encoder attention mask), and in every
    successful run the second `torch.onnx.export` call — the decoder
    export — targets `decoder.onnx` with `decoder_input_ids` axis 1
    symbolic `"seq"`, `encoder_hidden_states` axis 1 symbolic `"time"`, and
    the `logits` output symbolic in axis 1 (`"seq"`) and axis 2
    (`"vocab"`). -/
theorem C6_decoder_no_cache_dynamic_axes (env : Env) (fs0 : FS) (args : Args)
    (r : RunResult) (h : Script.main env fs0 args = .ok r) :
    (∀ ids ehs, (DecoderWrapper.forward ids ehs).use_cache = false ∧
                (DecoderWrapper.forward ids ehs).encoder_attention_mask = none) ∧
    ∃ c, r.exportCalls[1]? = some c ∧
      c.out_path = { dir := args.output_dir, name := "decoder.onnx" } ∧
      c.input_names = ["decoder_input_ids", "encoder_hidden_states"] ∧
      c.output_names = ["logits"] ∧
      c.dynamic_axes =
        [("decoder_input_ids", [(1, "seq")]),
         ("encoder_hidden_states", [(1, "time")]),
         ("logits", [(1, "seq"), (2, "vocab")])] := by
  refine ⟨fun ids ehs => ⟨rfl, rfl⟩, ?_⟩
  obtain ⟨hc, -, -⟩ := main_ok_spec env fs0 args r h
  rw [hc]
  exact ⟨_, rfl, rfl, rfl, rfl, rfl⟩

/-- Claim C6 witness: the decoder export call of a concrete run. -/
theorem C6_witness :
    ∃ r, Script.main okEnv emptyFS defaultArgs = Except.ok r ∧
      ∃ c, r.exportCalls[1]? = some c ∧
        c.out_path = { dir := defaultArgs.output_dir, name := "decoder.onnx" } ∧
        c.input_names = ["decoder_input_ids", "encoder_hidden_states"] ∧
        c.output_names = ["logits"] ∧
        c.dynamic_axes =
          [("decoder_input_ids", [(1, "seq")]),
           ("encoder_hidden_states", [(1, "time")]),
           ("logits", [(1, "seq"), (2, "vocab")])] := by
  obtain ⟨r, hr⟩ : ∃ r, Script.main okEnv emptyFS defaultArgs = Except.ok r := ⟨_, rfl⟩
  exact ⟨r, hr, (C6_decoder_no_cache_dynamic_axes okEnv emptyFS defaultArgs r hr).2⟩

/-- Claim C7: when quantization succeeds on a graph file, the output is a
    sibling in the same directory named `stem + "_int8.onnx"` and it is
    written with the quantized size; in particular `encoder.onnx` and
    `decoder.onnx` yield `encoder_int8.onnx` and `decoder_int8.onnx`. -/
theorem C7_quantized_sibling_naming (env : Env) (fs : FS) (path : PyPath)
    (sz : Nat) (h : env.quantizeRun fs path = .ok sz) :
    (path.with_name (path.stem ++ "_int8.onnx")).dir = path.dir ∧
    (path.with_name (path.stem ++ "_int8.onnx")).name = path.stem ++ "_int8.onnx" ∧
    ((quantize_int8 env fs path).1).fileSize
      (path.with_name (path.stem ++ "_int8.onnx")) = some sz ∧
    (∀ d : List String,
      PyPath.stem { dir := d, name := "encoder.onnx" } ++ "_int8.onnx" =
        "encoder_int8.onnx") ∧
    (∀ d : List String,
      PyPath.stem { dir := d, name := "decoder.onnx" } ++ "_int8.onnx" =
        "decoder_int8.onnx") := by
  refine ⟨rfl, rfl, ?_, fun d => ?_, fun d => ?_⟩
  case refine_2 =>
    show pathStem "encoder.onnx" ++ "_int8.onnx" = "encoder_int8.onnx"
    decide
  case refine_3 =>
    show pathStem "decoder.onnx" ++ "_int8.onnx" = "decoder_int8.onnx"
    decide
  unfold quantize_int8
  simp only [h]
  exact fileSize_writeFile_self fs _ sz

/-- Claim C7 witness: the sibling file produced for `encoder.onnx` in a
    concrete environment. -/
theorem C7_witness :
    ((quantize_int8 okEnv emptyFS
        { dir := ["assets", "onnx-ar"], name := "encoder.onnx" }).1).fileSize
      { dir := ["assets", "onnx-ar"], name := "encoder_int8.onnx" } = some 400 := by
  have h := C7_quantized_sibling_naming okEnv emptyFS
    { dir := ["assets", "onnx-ar"], name := "encoder.onnx" } 400 rfl
  have h2 := h.2.2.1
  have heq : ({ dir := ["assets", "onnx-ar"], name := "encoder.onnx" } : PyPath).with_name
      (PyPath.stem { dir := ["assets", "onnx-ar"], name := "encoder.onnx" } ++ "_int8.onnx") =
      { dir := ["assets", "onnx-ar"], name := "encoder_int8.onnx" } := by decide
  rw [heq] at h2
  exact h2

/-- Claim C8: for every non-empty output-dir argument,
    `mkdir(parents=True, exist_ok=True)` never raises; afterwards the
    directory exists, and when it was absent the whole ancestor chain
    (nested paths included) is created. -/
theorem C8_mkdir_idempotent_nested (fs : FS) (d : List String) (hne : d ≠ []) :
    ∃ fs', fs.mkdir d true true = Except.ok fs' ∧ fs'.dirExists d = true ∧
      (fs.dirExists d = false → ∀ a ∈ dirChain d, fs'.dirExists a = true) := by
  cases hd : fs.dirExists d with
  | true =>
    refine ⟨fs, ?_, hd, fun hf => by simp [hd] at hf⟩
    simp [FS.mkdir, hd]
  | false =>
    refine ⟨{ fs with dirs := dirChain d ++ fs.dirs }, ?_, ?_, ?_⟩
    · simp [FS.mkdir, hd]
    · exact List.elem_eq_true_of_mem
        (List.mem_append_left _ (self_mem_dirChain d hne))
    · intro _ a ha
      exact List.elem_eq_true_of_mem (List.mem_append_left _ ha)

/-- Claim C8 witness: creating the nested directory `tmp/a/b` on an empty
    filesystem. -/
theorem C8_witness :
    ∃ fs', emptyFS.mkdir ["tmp", "a", "b"] true true = Except.ok fs' ∧
      fs'.dirExists ["tmp", "a", "b"] = true ∧
      (emptyFS.dirExists ["tmp", "a", "b"] = false →
        ∀ a ∈ dirChain ["tmp", "a", "b"], fs'.dirExists a = true) :=
  C8_mkdir_idempotent_nested emptyFS ["tmp", "a", "b"] (by simp)

/-- Claim C9: the `--quantize` default is the string `"int8"`, the only
    string value argparse accepts is `"int8"`, and every successful run
    whose parsed value is `"int8"` — hence in particular every run with the
    flag absent — attempts quantization on both `encoder.onnx` and
    `decoder.onnx`. -/
theorem C9_quantize_default_always_on :
    parseQuantizeArg none = Except.ok "int8" ∧
    (∀ s v, parseQuantizeArg (some s) = Except.ok v → v = "int8") ∧
    (∀ env fs0 args r, args.quantize = "int8" →
      Script.main env fs0 args = Except.ok r →
      r.quantAttempts =
        [{ dir := args.output_dir, name := "encoder.onnx" },
         { dir := args.output_dir, name := "decoder.onnx" }]) := by
  refine ⟨rfl, ?_, ?_⟩
  · intro s v h
    unfold parseQuantizeArg at h
    by_cases hs : s = "int8"
    · subst hs
      simp [quantizeChoices] at h
      exact h.symm
    · simp [quantizeChoices, hs] at h
  · intro env fs0 args r hq h
    have hqa := (main_ok_spec env fs0 args r h).2.1
    rw [hq] at hqa
    simpa using hqa

/-- Claim C9 witness: the default command line attempts quantization on
    both graphs. -/
theorem C9_witness :
    ∃ r, Script.main okEnv emptyFS defaultArgs = Except.ok r ∧
      r.quantAttempts =
        [{ dir := defaultArgs.output_dir, name := "encoder.onnx" },
         { dir := defaultArgs.output_dir, name := "decoder.onnx" }] := by
  obtain ⟨r, hr⟩ : ∃ r, Script.main okEnv emptyFS defaultArgs = Except.ok r := ⟨_, rfl⟩
  exact ⟨r, hr, C9_quantize_default_always_on.2.2 okEnv emptyFS defaultArgs r rfl hr⟩

/-- Claim C10: in every successful run, the decoder export is traced with a
    fixed `(1, 4)` int64 zero token tensor and `zeros_like` of the actual
    encoder output on the dummy audio (computed before export): a zero
    tensor with exactly that output's shape; and the traced input
    signature is a function of the sample shapes and input names alone, so
    sample values cannot influence the exported input contract. -/
theorem C10_decoder_sample_shapes (env : Env) (fs0 : FS) (args : Args)
    (r : RunResult) (h : Script.main env fs0 args = .ok r) :
    (∃ c, r.exportCalls[1]? = some c ∧
      c.samples =
        [torchZeros [1, 4] DType.int64,
         zeros_like (env.encoderForward (env.processorRun
           (torchZeros [1, args.seconds * env.sampling_rate] DType.float32)))] ∧
      (torchZeros [1, 4] DType.int64).shape = [1, 4] ∧
      (torchZeros [1, 4] DType.int64).dtype = DType.int64 ∧
      (torchZeros [1, 4] DType.int64).isZeros = true ∧
      (zeros_like (env.encoderForward (env.processorRun
         (torchZeros [1, args.seconds * env.sampling_rate] DType.float32)))).shape =
        (env.encoderForward (env.processorRun
          (torchZeros [1, args.seconds * env.sampling_rate] DType.float32))).shape ∧
      (zeros_like (env.encoderForward (env.processorRun
         (torchZeros [1, args.seconds * env.sampling_rate] DType.float32)))).isZeros =
        true) ∧
    (∀ c₁ c₂ : ExportCall, c₁.input_names = c₂.input_names →
      c₁.samples.map (fun t => t.shape) = c₂.samples.map (fun t => t.shape) →
      tracedInputSignature c₁ = tracedInputSignature c₂) := by
  constructor
  · obtain ⟨hc, -, -⟩ := main_ok_spec env fs0 args r h
    rw [hc]
    exact ⟨_, rfl, rfl, rfl, rfl, rfl, rfl, rfl⟩
  · intro c₁ c₂ hn hs
    unfold tracedInputSignature
    rw [hn, hs]

/-- Claim C10 witness: the decoder sample tensors of a concrete run. -/
theorem C10_witness :
    ∃ r, Script.main okEnv emptyFS defaultArgs = Except.ok r ∧
      ∃ c, r.exportCalls[1]? = some c ∧
        c.samples =
          [torchZeros [1, 4] DType.int64,
           zeros_like (okEnv.encoderForward (okEnv.processorRun
             (torchZeros [1, defaultArgs.seconds * okEnv.sampling_rate]
               DType.float32)))] := by
  obtain ⟨r, hr⟩ : ∃ r, Script.main okEnv emptyFS defaultArgs = Except.ok r := ⟨_, rfl⟩
  obtain ⟨⟨c, hc1, hc2, -⟩, -⟩ :=
    C10_decoder_sample_shapes okEnv emptyFS defaultArgs r hr
  exact ⟨r, hr, c, hc1, hc2⟩
